import Mathlib

/-!
Verification of the IRC protocol core of the `half-duplex/sopel` repository.

This file shallowly embeds the parts of `src/sopel/irc/__init__.py`,
`src/sopel/tools/_batch.py` and `src/sopel/tools/calculation.py` that the
claims are about, and proves or refutes each claim against the embedding.

Modelling conventions:
* Python `str` values are Lean `String`s; Python `len` (code points) is
  `String.length`, and `len(s.encode('utf-8'))` is `String.utf8ByteSize`.
* Python slicing `s[1:]` / indexing `s[0]` are modelled by `pySlice1` /
  `pyHead` on the code-point list `String.data`.
* Wall-clock instants (`time.time()`, `datetime.utcnow()`) are rationals
  passed explicitly; `float` quantities from the configuration are also
  rationals (exact-arithmetic abstraction of IEEE floats).
* Python dicts keyed by strings are association lists (`alookup`/`ainsert`).
* Raising an exception is returning `Except.error`.
-/

set_option linter.unusedVariables false
set_option maxRecDepth 100000

deriving instance DecidableEq for Except

namespace Sopel

/-- Python `s[1:]` on code points. -/
def pySlice1 (s : String) : String := String.mk (s.data.drop 1)

/-- Python `s[0]` as a one-character string (`s[0]` raises `IndexError` on an
empty string in Python; the model returns the empty string there, and no claim
exercises that case). -/
def pyHead (s : String) : String := String.mk (s.data.take 1)

/-- Python `len(s.encode('utf-8'))`. -/
def utf8Len (s : String) : ℕ := s.utf8ByteSize

/-- Modelled from the spec: `sopel.irc.utils.safe` is not among the provided
source files; per the spec (wire-format constraints), outbound text must not
contain literal newline or carriage-return bytes, which are stripped before
send. -/
def safe (s : String) : String :=
  String.mk (s.data.filter (fun c => c ≠ '\n' ∧ c ≠ '\r'))

/-- Python `dict.get(key)` on an association list. -/
def alookup {α : Type} : List (String × α) → String → Option α
  | [], _ => none
  | (k, v) :: rest, key => if k = key then some v else alookup rest key

/-- Python `d[key] = value` on an association list. -/
def ainsert {α : Type} : List (String × α) → String → α → List (String × α)
  | [], k, v => [(k, v)]
  | (k', v') :: rest, k, v =>
      if k' = k then (k, v) :: rest else (k', v') :: ainsert rest k v

/-! ## `AbstractBot.safe_text_length` (src/sopel/irc/__init__.py:164-218) -/

/-- The part of the bot state consulted by `safe_text_length`:
`ISUPPORT` tokens `LINELEN` and `USERLEN` (absent when the server has not
advertised them), the bot's nick and user, and the hostmask when known. -/
structure BotEnv where
  linelen : Option ℕ
  userlen : Option ℕ
  nick : String
  user : String
  hostmask : Option String
  deriving DecidableEq

/-- `AbstractBot.safe_text_length(recipient)`, mirroring the source: the
`LINELEN` ISUPPORT value (512 if absent) minus the itemized framing overhead.
The result is an `ℤ` because the Python expression may go negative. -/
def safe_text_length (env : BotEnv) (recipient : String) : ℤ :=
  let max_line_length : ℤ := (env.linelen.getD 512 : ℕ)
  let hostmask_length : ℤ :=
    match env.hostmask with
    | some h => (h.length : ℕ)
    | none =>
        -- maximum possible length, given current nick/username
        (env.nick.length : ℤ)
        + 1  -- (! separator)
        + 1  -- (for the optional ~ in user)
        + (min env.user.length (env.userlen.getD 9) : ℕ)
        + 1  -- (@ separator)
        + 63  -- <hostname> maximum length
  max_line_length
    - 1  -- leading colon
    - hostmask_length
    - 1  -- space between the hostmask part and the command
    - 7  -- PRIVMSG command
    - 1  -- space before recipient
    - (utf8Len recipient : ℕ)  -- target channel/nick, UTF-8 bytes
    - 2  -- space after recipient, colon before text
    - 2  -- trailing CRLF

/-! ## Message splitting (`sopel.tools.get_sendable_message`) -/

/-- Number of leading characters of `cs` whose cumulative UTF-8 size fits in
the byte budget `b`. -/
def fitUtf8 : List Char → ℤ → ℕ
  | [], _ => 0
  | c :: cs, b =>
      if (c.utf8Size : ℤ) ≤ b then fitUtf8 cs (b - (c.utf8Size : ℤ)) + 1 else 0

/-- Index of the last space character of the list, if any. -/
def lastSpaceIdx : List Char → Option ℕ
  | [] => none
  | c :: cs =>
      match lastSpaceIdx cs with
      | some i => some (i + 1)
      | none => if c = ' ' then some 0 else none

/-- Modelled from the spec: `sopel.tools.get_sendable_message` is not among the
provided source files. Per the spec (Outbound Governor, splitting): given text
and a byte budget, produce a sendable prefix ending at or before the last
whitespace boundary within budget (or a hard cut at the budget if no such
boundary exists) plus the remainder. -/
def get_sendable_message (text : String) (maxLength : ℤ) : String × String :=
  let cs := text.data
  let n := fitUtf8 cs maxLength
  if n = cs.length then (text, "")
  else
    match lastSpaceIdx (cs.take n) with
    | some i => (String.mk (cs.take i), String.mk (cs.drop (i + 1)))
    | none => (String.mk (cs.take n), String.mk (cs.drop n))

/-! ## `AbstractBot.say` (src/sopel/irc/__init__.py:713-895)

The flood / anti-loop configuration values read from `settings.core`
(lines 811-822). The source setting `flood_penalty_ratio` is called
`flood_penalty_rate` here (only for lexical reasons; it is the same value).
Integer-typed settings are `ℕ` and float-typed settings are `ℚ`, matching the
configuration's validated types under the sane (non-negative) configurations
the claims quantify over. -/
structure FloodCfg where
  flood_max_wait : ℚ
  flood_burst_lines : ℕ
  flood_refill_rate : ℕ
  flood_empty_wait : ℚ
  flood_text_length : ℕ
  flood_penalty_rate : ℚ
  antiloop_threshold : ℕ
  antiloop_window : ℚ
  antiloop_repeat_text : String
  antiloop_silent_after : ℕ
  deriving DecidableEq

/-- One recipient's entry in `self.stack`: the bounded recent-message history
(a `deque(maxlen=10)` of `(timestamp, text)` pairs, oldest first) and the
remaining flood-bucket credits. -/
structure DestState where
  messages : List (ℚ × String)
  flood_left : ℕ
  deriving DecidableEq

/-- Append to a `deque(maxlen=10)`: the oldest entry is evicted at capacity. -/
def pushMax10 (l : List (ℚ × String)) (x : ℚ × String) : List (ℚ × String) :=
  let l' := l ++ [x]
  if 10 < l'.length then l'.drop (l'.length - 10) else l'

/-- Elapsed time since the last message sent to the destination
(lines 831-836): `t1 - last_timestamp`, defaulting to 300 when no message was
ever sent to it. -/
def elapsedOf (dest : DestState) (t1 : ℚ) : ℚ :=
  match dest.messages.getLast? with
  | some m => t1 - m.1
  | none => 300

/-- Outcome of one `say` call at the transport boundary. -/
inductive SayAction where
  | sent (recipient text : String)
  | dropped
  deriving DecidableEq

/-- Result of the flood-control / anti-loop stage of `say` (lines 824-890):
the action taken, the duration passed to `time.sleep` (0 when no sleep
happens), and the updated destination state. -/
structure SayStep where
  action : SayAction
  sleepT : ℚ
  dest : DestState
  deriving DecidableEq

/-- The body of `say` under the `self.sending` lock (lines 824-890), for one
destination: flood-bucket refill, flood wait, loop detection, send, and
recipient metadata update. `t1` is the `time.time()` read at line 832 and `t2`
the one at line 890. Python's early `return` on loop suppression is modelled
by the `.dropped` branch (which keeps the refilled bucket — the refill at
lines 840-843 has already written the state — and appends nothing). -/
def refillOf (cfg : FloodCfg) (dest : DestState) (elapsed : ℚ) : ℕ :=
  -- lines 838-843: refill when the bucket is empty
  if dest.flood_left = 0 then
    min cfg.flood_burst_lines ((Int.toNat ⌊elapsed⌋) * cfg.flood_refill_rate)
  else dest.flood_left

/-- Lines 845-871: the duration passed to `time.sleep` when the bucket is
still empty after the refill (`textLen` is `len(text)`). -/
def sleepOf (cfg : FloodCfg) (textLen : ℕ) (elapsed : ℚ) (flood_left : ℕ) : ℚ :=
  if flood_left = 0 then
    let penalty : ℚ :=
      if 0 < cfg.flood_penalty_rate then
        (max 0 ((textLen : ℚ) - (cfg.flood_text_length : ℚ)))
          / ((cfg.flood_text_length : ℚ) * cfg.flood_penalty_rate)
      else 0
    let wait := min (cfg.flood_empty_wait + penalty) cfg.flood_max_wait
    if elapsed < wait then wait - elapsed else 0
  else 0

def sayDest (cfg : FloodCfg) (recipient text : String) (dest : DestState)
    (t1 t2 : ℚ) : SayStep :=
  let elapsed := elapsedOf dest t1
  let flood_left := refillOf cfg dest elapsed
  let sleepT := sleepOf cfg text.length elapsed flood_left
  -- line 819: threshold capped at 10; lines 873-890
  let thr := min 10 cfg.antiloop_threshold
  let msgs := dest.messages.map Prod.snd
  let send := fun (t : String) =>
    SayStep.mk (.sent recipient t) sleepT
      ⟨pushMax10 dest.messages (t2, safe t), flood_left - 1⟩
  if 0 < thr ∧ elapsed < cfg.antiloop_window then
    if thr ≤ msgs.count text then
      -- repeated at least N times: replace with the placeholder
      if cfg.antiloop_silent_after ≤ msgs.count cfg.antiloop_repeat_text then
        -- already said the placeholder N times: discard the message
        ⟨.dropped, sleepT, { dest with flood_left := flood_left }⟩
      else send cfg.antiloop_repeat_text
    else send text
  else send text

/-- The text-processing stage of `say` (lines 788-809): optional splitting at
the safe length, optional truncation marker, always-appended trailing text.
Returns the processed text and the excess for a possible recursive resend. -/
def processText (env : BotEnv) (text recipient : String) (max_messages : ℕ)
    (truncation trailing : String) : String × String :=
  let safe_length := safe_text_length env recipient
  if max_messages > 1 ∨ truncation ≠ "" ∨ trailing ≠ "" then
    let sl1 :=
      if max_messages = 1 ∧ trailing ≠ "" then
        safe_length - (utf8Len trailing : ℤ)
      else safe_length
    let (t1, e1) := get_sendable_message text sl1
    if max_messages = 1 then
      if e1 ≠ "" ∧ truncation ≠ "" then
        -- only append `truncation` if this is the last message AND it is
        -- still too long
        let sl2 := sl1 - (utf8Len truncation : ℤ)
        let (t2, e2) := get_sendable_message t1 sl2
        (t2 ++ truncation ++ trailing, e2)
      else (t1 ++ trailing, e1)
    else (t1, e1)
  else
    -- no splitting: the excess stays empty
    if max_messages = 1 then (text ++ trailing, "") else (text, "")

/-- Full result of one `say` call: the transport action, sleep duration,
updated destination state, and the `(excess, max_messages - 1)` of the
recursive call at line 895 when one would happen. -/
structure SayResult where
  action : SayAction
  sleepT : ℚ
  dest : DestState
  resend : Option (String × ℕ)
  deriving DecidableEq

/-- `AbstractBot.say` after the backend check: text processing, then the
per-destination flood / anti-loop stage, then the recursion condition
`max_messages > 1 and excess` (line 894; skipped when the loop-suppression
`return` fired). -/
def sayFull (env : BotEnv) (cfg : FloodCfg) (dest : DestState)
    (text recipient : String) (max_messages : ℕ) (truncation trailing : String)
    (t1 t2 : ℚ) : SayResult :=
  let (text', excess) := processText env text recipient max_messages truncation trailing
  let r := sayDest cfg recipient text' dest t1 t2
  let resend :=
    if max_messages > 1 ∧ excess ≠ "" ∧ r.action ≠ .dropped then
      some (excess, max_messages - 1)
    else none
  ⟨r.action, r.sleepT, r.dest, resend⟩

/-! ### Claim-side formulas (transcribed from the claim text, for comparison
with the embedded code) -/

/-- The refill value as written in the C4 claim:
`min(flood_burst_lines, floor(elapsed) * flood_refill_rate)` when the bucket
is empty, over `ℤ` so that `floor` is the mathematical floor. -/
def refillSpecZ (cfg : FloodCfg) (dest : DestState) (elapsed : ℚ) : ℤ :=
  if dest.flood_left = 0 then
    min (cfg.flood_burst_lines : ℤ) (⌊elapsed⌋ * (cfg.flood_refill_rate : ℤ))
  else (dest.flood_left : ℤ)

/-- The penalty as written in the C4 claim:
`max(0, len(text) - flood_text_length) / (flood_text_length *
flood_penalty_ratio)` when `flood_penalty_ratio > 0`, else 0. -/
def penaltySpec (cfg : FloodCfg) (textLen : ℕ) : ℚ :=
  if 0 < cfg.flood_penalty_rate then
    (max 0 ((textLen : ℚ) - (cfg.flood_text_length : ℚ)))
      / ((cfg.flood_text_length : ℚ) * cfg.flood_penalty_rate)
  else 0

/-- The wait time as written in the C4 claim:
`min(flood_empty_wait + penalty, flood_max_wait)`. -/
def waitSpec (cfg : FloodCfg) (textLen : ℕ) : ℚ :=
  min (cfg.flood_empty_wait + penaltySpec cfg textLen) cfg.flood_max_wait

/-! ### Concrete fixtures for the end-to-end scenarios -/

/-- The server/bot environment of the C2 scenario: the server advertises
`LINELEN=100`, the bot's nick is `bot`, its user is `b`, and no hostmask is
known yet. -/
def envLinelen100 : BotEnv := ⟨some 100, none, "bot", "b", none⟩

/-- A concrete flood/anti-loop configuration for evaluations (the stock
default values of the configuration: max wait 2s, burst 4, refill 1,
empty wait 0.7s, normal text length 32, penalty ratio 1.4, anti-loop
threshold 5, window 60s, placeholder text `...`, silent after 3). -/
def floodDefaults : FloodCfg := ⟨2, 4, 1, 7/10, 32, 7/5, 5, 60, "...", 3⟩

/-- The 150-character `"x" * 150` text of the C2 scenario. -/
def xText : String := String.mk (List.replicate 150 'x')

/-- A configuration whose `antiloop_threshold` is 0 (the documented way to
disable loop suppression), used to probe the loop-suppression claim. -/
def cfgLoopZero : FloodCfg := ⟨2, 4, 1, 7/10, 32, 7/5, 0, 100, "[loop]", 0⟩

/-- A configuration with `antiloop_threshold` 1 and `antiloop_silent_after`
2, used as a concrete instance of the loop-suppression behaviour. -/
def cfgLoopOne : FloodCfg := ⟨2, 4, 1, 7/10, 32, 7/5, 1, 10, "***", 2⟩

/-- Errors raised by the embedded bot methods. -/
inductive BotErr where
  | backendNotInitialized
  | valueError
  deriving DecidableEq

/-- `AbstractBot.say` (lines 713-895): the backend precondition check
(lines 785-786), then the send pipeline. The destination's stack entry is
passed directly (`self.stack` is keyed by the recipient identifier; identifier
folding lives in `sopel.tools.identifiers`, outside the provided sources, and
no claim distinguishes two recipients that fold together). -/
def say (backend : Bool) (env : BotEnv) (cfg : FloodCfg) (dest : DestState)
    (text recipient : String) (max_messages : ℕ) (truncation trailing : String)
    (t1 t2 : ℚ) : Except BotErr SayResult :=
  if backend then
    .ok (sayFull env cfg dest text recipient max_messages truncation trailing t1 t2)
  else .error .backendNotInitialized

/-! ## PreTrigger, Batch, and `AbstractBot.on_message`
(src/sopel/irc/__init__.py:298-345, src/sopel/tools/_batch.py) -/

/-- The structured form of one raw inbound line, as produced by the external
`sopel.trigger.PreTrigger` factory (line parsing is an external collaborator
per the spec; the fields here are the ones `on_message` and `Batch`
consult). -/
structure PreTrigger where
  event : String
  args : List String
  tags : List (String × String)
  deriving DecidableEq

/-- `BatchType` (src/sopel/tools/_batch.py:9-12), a `str`-valued enum. -/
inductive BatchType where
  | chathistory
  | netjoin
  | netsplit
  deriving DecidableEq

/-- The `BatchType(value)` enum lookup; `none` models the `ValueError` that
Python raises for an unknown value. -/
def BatchType.ofStr? : String → Option BatchType
  | "chathistory" => some .chathistory
  | "netjoin" => some .netjoin
  | "netsplit" => some .netsplit
  | _ => none

/-- `Batch` (src/sopel/tools/_batch.py:15-28): reference tag, type, optional
parent and buffered messages. The source stores the parent `Batch` object;
the model records the parent's reference tag (no claim distinguishes the
two). `Batch.__init__` reads `pretrigger[1][1:]` and `pretrigger[2]`, which
index the same positions of `args` that `on_message`'s `args[1][0]` does. -/
structure BatchM where
  reference : String
  batchtype : BatchType
  parentRef : Option String
  messages : List PreTrigger
  deriving DecidableEq

/-- The bot state consulted by `on_message`: the open-batch index
`self.batches` and the enabled capabilities. -/
structure IrcState where
  batches : List (String × BatchM)
  enabled_capabilities : List String
  deriving DecidableEq

/-- Backend responses `on_message` can issue (lines 339-343). -/
inductive Effect where
  | pong (arg : String)
  | ircError
  deriving DecidableEq

/-- Lines 339-345 of `on_message`: the keepalive / ERROR responses, then the
dispatch of the pretrigger. -/
def finishDispatch (st : IrcState) (pt : PreTrigger) :
    IrcState × List Effect × List PreTrigger :=
  let effs :=
    if pt.event = "PING" then [Effect.pong (pt.args.getLastD "")]
    else if pt.event = "ERROR" then [Effect.ircError]
    else []
  (st, effs, [pt])

/-- Lines 332-336 of `on_message`: an event carrying a `batch` tag for an
unknown batch is logged and dropped; one for a known batch falls through to
dispatch — the buffering of the event into the batch is an unimplemented
`pass` stub (`todo: add message to batch`). -/
def onMessageTail (st : IrcState) (pt : PreTrigger) :
    IrcState × List Effect × List PreTrigger :=
  match alookup pt.tags "batch" with
  | some ref =>
      if (alookup st.batches ref).isNone then (st, [], [])
      else finishDispatch st pt
  | none => finishDispatch st pt

/-- `AbstractBot.on_message` (lines 298-345): the backend precondition check,
the `account` tag stripping, the BATCH open/close/malformed handling, the
batch-membership check, keepalive handling, and dispatch. Returns the new
state, the backend effects, and the pretriggers passed to `dispatch`.
Two notes on fidelity: (1) `Batch(...)` raises `ValueError` for an unknown
batch type, modelled as `.error .valueError`; (2) the close (`-`) branch at
lines 326-328 consists of the line `if self.batches[pretrigger.args[1][0]]` —
a Python syntax error — followed by `pass  # todo: handle batch`; it is
modelled as the no-op its `pass` stub describes, which is the only executable
reading of that branch. -/
def on_message (backend : Bool) (st : IrcState) (pt0 : PreTrigger) :
    Except BotErr (IrcState × List Effect × List PreTrigger) :=
  if backend = false then .error .backendNotInitialized
  else
    let pt :=
      if "account-tag" ∉ st.enabled_capabilities
          ∧ "extended-join" ∉ st.enabled_capabilities then
        { pt0 with tags := pt0.tags.filter (fun kv => kv.1 ≠ "account") }
      else pt0
    if pt.event = "BATCH" then
      let a1 := pt.args.getD 1 ""
      let action := pyHead a1
      if action = "+" then
        match BatchType.ofStr? (pt.args.getD 2 "") with
        | none => .error .valueError
        | some ty =>
            let parentRef :=
              ((alookup pt.tags "batch").bind
                (fun k => alookup st.batches k)).map (fun b => b.reference)
            let newbatch : BatchM := ⟨pySlice1 a1, ty, parentRef, []⟩
            let st1 := { st with
              batches := ainsert st.batches newbatch.reference newbatch }
            .ok (onMessageTail st1 pt)
      else if action = "-" then
        .ok (onMessageTail st pt)
      else
        .ok (st, [], [])  -- malformed BATCH message: logged and dropped
    else .ok (onMessageTail st pt)

/-! ### C1 fixtures -/

/-- A BATCH open marker for reference `r1` of type `netjoin`
(`args[1] = "+r1"`, `args[2] = "netjoin"` as read by the code). -/
def batchOpenR1 : PreTrigger := ⟨"BATCH", ["*", "+r1", "netjoin"], []⟩

/-- An inbound event tagged as belonging to batch `r1`. -/
def taggedEventR1 : PreTrigger := ⟨"PRIVMSG", ["#c", "hi"], [("batch", "r1")]⟩

/-- The BATCH close marker for reference `r1`. -/
def batchCloseR1 : PreTrigger := ⟨"BATCH", ["*", "-r1"], []⟩

/-- A BATCH close marker for a reference that was never opened. -/
def batchCloseUnopened : PreTrigger := ⟨"BATCH", ["*", "-zz"], []⟩

/-- A fresh bot state: no open batches, no capabilities. -/
def ircState0 : IrcState := ⟨[], []⟩

/-- The state after opening batch `r1`: the batch is indexed, empty. -/
def ircStateR1 : IrcState := ⟨[("r1", ⟨"r1", .netjoin, none, []⟩)], []⟩

/-! ## Public session API and the backend precondition (C9) -/

/-- The backend primitives invoked by the public API methods (the
`send_notice`, `send_join`, ... calls on the abstract backend). -/
inductive BackendCall where
  | privmsg (dest text : String)
  | noticeCall (dest text : String)
  | joinCall (channel : String) (password : Option String)
  | partCall (channel : String) (reason : Option String)
  | kickCall (channel nick : String) (reason : Option String)
  | quitCall (reason : Option String)
  | commandCall (args : List String) (text : Option String)
  | capLs
  | passCall
  | nickCall (nick : String)
  | userCall (user mode unused name : String)
  deriving DecidableEq

/-- `AbstractBot.notice(text, dest)` (lines 639-648). -/
def notice (backend : Bool) (text dest : String) : Except BotErr BackendCall :=
  if backend then .ok (.noticeCall dest text)
  else .error .backendNotInitialized

/-- `AbstractBot.join(channel, password)` (lines 602-616). -/
def join (backend : Bool) (channel : String) (password : Option String) :
    Except BotErr BackendCall :=
  if backend then .ok (.joinCall channel password)
  else .error .backendNotInitialized

/-- `AbstractBot.part(channel, msg)` (lines 650-659). -/
def part (backend : Bool) (channel : String) (msg : Option String) :
    Except BotErr BackendCall :=
  if backend then .ok (.partCall channel msg)
  else .error .backendNotInitialized

/-- `AbstractBot.kick(nick, channel, text)` (lines 618-637). -/
def kick (backend : Bool) (nick channel : String) (text : Option String) :
    Except BotErr BackendCall :=
  if backend then .ok (.kickCall channel nick text)
  else .error .backendNotInitialized

/-- `AbstractBot.quit(message)` (lines 661-670): sends the QUIT command and
sets the `hasquit` flag (the second component). -/
def quit (backend : Bool) (message : Option String) :
    Except BotErr (BackendCall × Bool) :=
  if backend then .ok (.quitCall message, true)
  else .error .backendNotInitialized

/-- `AbstractBot.write(args, text)` (lines 554-587): strips newline bytes
from each argument via `safe` and hands the command to the backend. -/
def write (backend : Bool) (args : List String) (text : Option String) :
    Except BotErr BackendCall :=
  if backend then .ok (.commandCall (args.map safe) text)
  else .error .backendNotInitialized

/-- The settings consulted by `on_connect`: whether `auth_method` (resp.
`server_auth_method`) is `'server'`, and the nick/user/name to register. -/
structure ConnectCfg where
  auth_server : Bool
  server_auth_server : Bool
  nick : String
  user : String
  name : String
  deriving DecidableEq

/-- `AbstractBot.on_connect` (lines 272-296): CAP LS, optional PASS, NICK,
USER, in that fixed order. -/
def on_connect (backend : Bool) (cfg : ConnectCfg) :
    Except BotErr (List BackendCall) :=
  if backend = false then .error .backendNotInitialized
  else
    .ok ([BackendCall.capLs]
      ++ (if cfg.auth_server then [BackendCall.passCall]
          else if cfg.server_auth_server then [BackendCall.passCall] else [])
      ++ [BackendCall.nickCall cfg.nick,
          BackendCall.userCall cfg.user "0" "*" cfg.name])

/-- Is the result the `RuntimeError` raised for a missing backend? -/
def isBackendErr {α : Type} : Except BotErr α → Bool
  | .error .backendNotInitialized => true
  | _ => false

/-! ## `sopel.tools.calculation` (C10)

The expression sandbox: `ast.parse` (Python's own parser, the source of
`SyntaxError` for unparseable input) is external; the model starts from the
parsed AST. Python floats are dyadic rationals, represented exactly in `ℚ`;
arithmetic on them is exact here where IEEE arithmetic rounds and can
overflow (see C10's entry for the consequences). Python booleans are `int`
instances and are subsumed by `.int`. Complex values — produced by a
negative base raised to a fractional power, and by `pow_complexity` for
negative int exponents, where the guard's comparison with 0.5 then raises
`TypeError` — are tracked at kind level by `.complexVal` / `.typeError`. -/

/-- Constant values of `ast.Constant` nodes. -/
inductive PyConst where
  | int (n : ℤ)
  | float (q : ℚ)
  | str (s : String)
  | noneConst
  deriving DecidableEq

/-- Binary operator nodes: the first eight have entries in
`EquationEvaluator.__bin_ops` (calculation.py:241-250); the last four are
representative Python operators with no entry. -/
inductive PyBinOp where
  | add | sub | mult | div | pow | mod | floorDiv | bitXor
  | bitAnd | bitOr | lshift | rshift
  deriving DecidableEq

/-- Unary operator nodes: `USub`/`UAdd` are in `__unary_ops`; `Invert`
(`~x`) and `Not` are not. -/
inductive PyUnaryOp where
  | usub | uadd
  | invert | notOp
  deriving DecidableEq

/-- Python expression AST nodes: the three kinds `_eval_node` handles plus
the unsupported kinds the claim names (a call's argument list is modelled by
a single argument; the evaluator never looks inside a call). -/
inductive PyAst where
  | constant (c : PyConst)
  | binOp (op : PyBinOp) (l r : PyAst)
  | unaryOp (op : PyUnaryOp) (e : PyAst)
  | name (id : String)
  | call (f a : PyAst)
  | attr (obj : PyAst) (fld : String)
  deriving DecidableEq

/-- A value produced by the evaluator: a Python `int`, `float`, or `complex`.
A complex arises from a negative base raised to a fractional power (and then
propagates through arithmetic); its components are irrational in general and
lie outside the exact-rational model, so `.complexVal` records only the kind.
Only the kind of a complex result matters to the claims (a complex is not an
int/float). -/
inductive PyVal where
  | int (n : ℤ)
  | float (q : ℚ)
  | complexVal
  deriving DecidableEq

/-- Exceptions that can escape the evaluation: the evaluator's own
`ExpressionEvaluator.Error`, the `ValueError` of `guarded_mul`/`guarded_pow`,
the `ZeroDivisionError` of `/`, `//`, `%` (and of a zero base raised to a
negative or complex power), and the `TypeError` raised when `guarded_pow`
compares the complex produced by `pow_complexity` with `0.5`, or when `//`
or `%` meets a complex operand. -/
inductive PyExc where
  | evalError
  | valueError
  | zeroDivision
  | typeError
  deriving DecidableEq

/-- The rational value of an int/float. Consulted only after complex
operands have been dispatched by the callers' earlier match arms; the value
returned for `.complexVal` is never meaningful. -/
def PyVal.toQ : PyVal → ℚ
  | .int n => (n : ℚ)
  | .float q => q
  | .complexVal => 0

/-- `int.bit_length()` of a Python integer. -/
def bitLength (n : ℤ) : ℕ := Nat.size n.natAbs

/-- Python numeric addition: `int + int` is an `int`; a complex operand
makes the result complex; otherwise a float. -/
def pyAdd : PyVal → PyVal → PyVal
  | .int a, .int b => .int (a + b)
  | .complexVal, _ => .complexVal
  | _, .complexVal => .complexVal
  | a, b => .float (a.toQ + b.toQ)

/-- Python numeric subtraction (same kind rules as addition). -/
def pySub : PyVal → PyVal → PyVal
  | .int a, .int b => .int (a - b)
  | .complexVal, _ => .complexVal
  | _, .complexVal => .complexVal
  | a, b => .float (a.toQ - b.toQ)

/-- `guarded_mul` (calculation.py:124-144): only int×int is guarded; trivial
factors (0 or 1) pass, and an operand-size sum of more than 664386 bits
raises `ValueError`. Non-int operands go straight to `operator.mul`: a
complex operand makes the product complex. -/
def guarded_mul (left right : PyVal) : Except PyExc PyVal :=
  match left, right with
  | .int a, .int b =>
      if a = 0 ∨ a = 1 ∨ b = 0 ∨ b = 1 then .ok (.int (a * b))
      else if 664386 < bitLength a + bitLength b then .error .valueError
      else .ok (.int (a * b))
  | .complexVal, _ => .ok .complexVal
  | _, .complexVal => .ok .complexVal
  | a, b => .ok (.float (a.toQ * b.toQ))

/-- Python `operator.truediv`: the result is a float (complex when an
operand is complex); an exactly-zero divisor raises `ZeroDivisionError`. A
divisor of complex kind is modelled as nonzero: whether a computed complex
equals 0 is not observable at the kind level, so the model picks the complex
result (the real code would raise `ZeroDivisionError` in the measure-zero
case of an exactly-zero complex; both outcomes are in C10's amended
taxonomy). -/
def pyDiv (a b : PyVal) : Except PyExc PyVal :=
  match a, b with
  | _, .complexVal => .ok .complexVal
  | .complexVal, b =>
      if b.toQ = 0 then .error .zeroDivision else .ok .complexVal
  | a, b =>
      if b.toQ = 0 then .error .zeroDivision else .ok (.float (a.toQ / b.toQ))

/-- Python `operator.floordiv`: floor division (`Int.fdiv` matches Python's
floor semantics on ints); a zero divisor raises `ZeroDivisionError`, and a
complex operand raises `TypeError` (complex numbers support no `//`). -/
def pyFloorDiv (a b : PyVal) : Except PyExc PyVal :=
  match a, b with
  | .complexVal, _ => .error .typeError
  | _, .complexVal => .error .typeError
  | .int m, .int n =>
      if n = 0 then .error .zeroDivision else .ok (.int (Int.fdiv m n))
  | _, _ =>
      if b.toQ = 0 then .error .zeroDivision
      else .ok (.float ((⌊a.toQ / b.toQ⌋ : ℤ) : ℚ))

/-- Python `operator.mod`: the remainder takes the divisor's sign
(`Int.fmod`); a zero divisor raises `ZeroDivisionError`, and a complex
operand raises `TypeError` (complex numbers support no `%`). -/
def pyMod (a b : PyVal) : Except PyExc PyVal :=
  match a, b with
  | .complexVal, _ => .error .typeError
  | _, .complexVal => .error .typeError
  | .int m, .int n =>
      if n = 0 then .error .zeroDivision else .ok (.int (Int.fmod m n))
  | _, _ =>
      if b.toQ = 0 then .error .zeroDivision
      else .ok (.float (a.toQ - b.toQ * ((⌊a.toQ / b.toQ⌋ : ℤ) : ℚ)))

/-- Python `operator.pow` on numbers. Exact cases: int to a non-negative int
power is an int; an int base to a negative int power is a float
(`ZeroDivisionError` on base 0); a real base to an integral-valued float
power is the exact rational (`ZeroDivisionError` for 0 to a negative power);
a NEGATIVE real base to a fractional power returns a COMPLEX (Python 3
semantics); a zero base to a negative fractional power raises
`ZeroDivisionError`; an exactly-zero real base to a complex power raises
`ZeroDivisionError` (`0 ** 1j`). Modelled at kind level only: a positive
real base to a fractional power is a real float whose irrational value the
exact-rational model cannot carry (an unspecified float, here 0, stands in —
only its kind is meaningful); a complex base is modelled as nonzero, giving
a complex result. -/
def pyPow (a b : PyVal) : Except PyExc PyVal :=
  match a, b with
  | .int m, .int n =>
      if 0 ≤ n then .ok (.int (m ^ n.toNat))
      else if m = 0 then .error .zeroDivision
      else .ok (.float (((m : ℚ) ^ (-n).toNat)⁻¹))
  | .complexVal, _ => .ok .complexVal
  | a, .complexVal =>
      if a.toQ = 0 then .error .zeroDivision else .ok .complexVal
  | a, b =>
      let q := a.toQ
      let e := b.toQ
      if e.den = 1 then
        if 0 ≤ e.num then .ok (.float (q ^ e.num.toNat))
        else if q = 0 then .error .zeroDivision
        else .ok (.float ((q ^ (-e.num).toNat)⁻¹))
      else
        if q < 0 then .ok .complexVal
        else if q = 0 ∧ e < 0 then .error .zeroDivision
        else .ok (.float 0)

/-- `guarded_pow` (calculation.py:213-230): for int operands the guard
evaluates `pow_complexity(num, exp) < 0.5`. That comparison decomposes
exactly into three regimes of `pow_complexity` (calculation.py:147-210):
when `num in (0, 1) or exp in (0, 1)` it returns `0`, so the guard passes;
otherwise both branches compute `exp ** 1.092` (or `exp ** 1.590`) — for a
NEGATIVE `exp` a negative int to a fractional power is a COMPLEX in Python
3, the whole estimate is complex, and the `< 0.5` comparison raises
`TypeError`; for `exp ≥ 2` both branches are real floats and only the
result of the irrational-exponent comparison needs abstraction, as the
oracle `pcLtHalf` (over which the theorems quantify — it also stands in for
the float overflow the estimate can hit at astronomical exponents, which is
outside the exact model). Non-int operands skip the guard and go straight
to `operator.pow`. -/
def guarded_pow (pcLtHalf : ℤ → ℤ → Bool) (num e : PyVal) :
    Except PyExc PyVal :=
  match num, e with
  | .int m, .int n =>
      if m = 0 ∨ m = 1 ∨ n = 0 ∨ n = 1 then pyPow (.int m) (.int n)
      else if n < 0 then .error .typeError
      else if pcLtHalf m n then pyPow (.int m) (.int n)
      else .error .valueError
  | a, b => pyPow a b

/-- `EquationEvaluator.__bin_ops` (calculation.py:241-250): the handler for
each supported operator node, `none` for nodes with no dict entry. BitXor
(`^`) maps to power. -/
def binOps (pcLtHalf : ℤ → ℤ → Bool) :
    PyBinOp → Option (PyVal → PyVal → Except PyExc PyVal)
  | .add => some (fun a b => .ok (pyAdd a b))
  | .sub => some (fun a b => .ok (pySub a b))
  | .mult => some guarded_mul
  | .div => some pyDiv
  | .pow => some (guarded_pow pcLtHalf)
  | .mod => some pyMod
  | .floorDiv => some pyFloorDiv
  | .bitXor => some (guarded_pow pcLtHalf)
  | _ => none

/-- `EquationEvaluator.__unary_ops` (calculation.py:251-254): negation and
unary plus, both defined on complex values too. -/
def unOps : PyUnaryOp → Option (PyVal → PyVal)
  | .usub => some (fun v =>
      match v with
      | .int n => .int (-n)
      | .float q => .float (-q)
      | .complexVal => .complexVal)
  | .uadd => some (fun v => v)
  | _ => none

/-- Whether the binary operator has a `__bin_ops` entry (independent of the
complexity oracle). -/
def supportedBin (op : PyBinOp) : Bool := (binOps (fun _ _ => true) op).isSome

/-- Whether the unary operator has a `__unary_ops` entry. -/
def supportedUn (op : PyUnaryOp) : Bool := (unOps op).isSome

/-- `ExpressionEvaluator._eval_node` (calculation.py:64-121) with the
`EquationEvaluator` tables: a constant must be an int/float; a
`BinOp`/`UnaryOp` must have a table entry and evaluates its operands left to
right before applying the handler; any other node kind raises
`ExpressionEvaluator.Error`. The `time.time() > timeout` check after each
operand evaluation is modelled by the constant `timedOut` flag. -/
def evalNode (pcLtHalf : ℤ → ℤ → Bool) (timedOut : Bool) :
    PyAst → Except PyExc PyVal
  | .constant c =>
      match c with
      | .int n => .ok (.int n)
      | .float q => .ok (.float q)
      | _ => .error .evalError  -- values of this type are not supported
  | .binOp op l r =>
      match binOps pcLtHalf op with
      | none => .error .evalError  -- unsupported binary operator
      | some f => do
          let lv ← evalNode pcLtHalf timedOut l
          let rv ← evalNode pcLtHalf timedOut r
          if timedOut then .error .evalError  -- evaluation time ran out
          else f lv rv
  | .unaryOp op e =>
      match unOps op with
      | none => .error .evalError  -- unsupported unary operator
      | some f => do
          let v ← evalNode pcLtHalf timedOut e
          if timedOut then .error .evalError
          else .ok (f v)
  | _ => .error .evalError  -- node type is not supported

/-- `eval_equation(expression_str)` after `ast.parse`: the evaluation of the
parsed expression body (`SyntaxError` for unparseable input is raised by the
Python parser, before this point). -/
def eval_equation (pcLtHalf : ℤ → ℤ → Bool) (timedOut : Bool)
    (tree : PyAst) : Except PyExc PyVal :=
  evalNode pcLtHalf timedOut tree

/-- The outcome taxonomy asserted by the C10 claim at the AST level: an
int/float value, a `ValueError`, or an `ExpressionEvaluator.Error`. -/
def claimedOutcome (r : Except PyExc PyVal) : Prop :=
  (∃ v, r = .ok v) ∨ r = .error .valueError ∨ r = .error .evalError

/-- Syntactic check: the expression consists only of int/float constants
combined with the supported binary and unary operators. -/
def usesOnlyArith : PyAst → Bool
  | .constant (.int _) => true
  | .constant (.float _) => true
  | .constant _ => false
  | .binOp op l r => supportedBin op && usesOnlyArith l && usesOnlyArith r
  | .unaryOp op e => supportedUn op && usesOnlyArith e
  | _ => false

/-- The AST of `2 ** -2`:
`BinOp(Pow, Constant(2), UnaryOp(USub, Constant(2)))`. -/
def astTwoPowNegTwo : PyAst :=
  .binOp .pow (.constant (.int 2)) (.unaryOp .usub (.constant (.int 2)))

/-- The AST of `(-2.0) ** 0.5`:
`BinOp(Pow, UnaryOp(USub, Constant(2.0)), Constant(0.5))`. -/
def astNegBaseFracPow : PyAst :=
  .binOp .pow (.unaryOp .usub (.constant (.float 2)))
    (.constant (.float (1/2)))

/-! ## `AbstractBot.cap_req` (src/sopel/irc/__init__.py:471-552) -/

/-- One capability request, the `CapReq` namedtuple of `sopel.irc.utils`
(fields `prefix, module, failure, arg, success`). The two callback fields are
functions and are not modelled (no claim concerns them); `pfx` stands for the
source field `prefix`. -/
structure CapReq where
  pfx : String
  module : String
  arg : Option String
  deriving DecidableEq

/-- The capability bookkeeping state touched by `cap_req`: the `_cap_reqs`
dict, the `connection_registered` flag and the `enabled_capabilities` set. -/
structure CapState where
  cap_reqs : List (String × List CapReq)
  connection_registered : Bool
  enabled_capabilities : List String
  deriving DecidableEq

/-- The capability state of a freshly constructed bot. -/
def capState0 : CapState := ⟨[], false, []⟩

/-- The two kinds of `Exception` that `cap_req` raises: the two
`'Capability conflict'` sites, and the two
`'Can not change capabilities after server connection has been completed.'`
sites. The spec's error taxonomy calls both of them `CapabilityConflictError`
(its conflict rule covers post-registration changes as well). -/
inductive CapErr where
  | conflict
  | postRegistration
  deriving DecidableEq

/-- `AbstractBot.cap_req(plugin_name, capability, arg, ...)`, mirroring the
source exactly. Note that the conflict-check entry is fetched under the key
`capability[1:]` BEFORE the prefix is examined, so for an unprefixed
capability the entry consulted (and later appended to and stored back) starts
from the list recorded under the name minus its first character. -/
def cap_req (st : CapState) (plugin_name capability : String)
    (arg : Option String) : Except CapErr CapState :=
  let cap := pySlice1 capability
  let pfx := pyHead capability
  let entry := (alookup st.cap_reqs cap).getD []
  if entry.any (fun ent => ent.arg ≠ arg) then .error .conflict
  else if pfx = "-" then
    if st.connection_registered ∧ cap ∈ st.enabled_capabilities then
      .error .postRegistration
    else if entry.any (fun ent => ent.pfx ≠ "-") then .error .conflict
    else
      let entry2 := entry ++ [CapReq.mk "-" plugin_name arg]
      .ok { st with cap_reqs := ainsert st.cap_reqs cap entry2 }
  else
    -- unprefixed requests use the whole capability string as the key
    let cap := if pfx ≠ "=" then capability else cap
    let pfx := if pfx ≠ "=" then "" else pfx
    if st.connection_registered ∧ cap ∉ st.enabled_capabilities then
      .error .postRegistration
    else if entry.any (fun ent => ent.pfx = "-") ∧ pfx = "=" then
      .error .conflict
    else
      let entry2 := entry ++ [CapReq.mk pfx plugin_name arg]
      .ok { st with cap_reqs := ainsert st.cap_reqs cap entry2 }

/-- The request list recorded for the key a `cap_req` call will consult:
`_cap_reqs.get(capability[1:], [])`. -/
def entryOf (st : CapState) (capability : String) : List CapReq :=
  (alookup st.cap_reqs (pySlice1 capability)).getD []

/-- Two successive `cap_req` calls from a fresh bot, from plugins `p1` and
`p2`, both with `arg=None`; the value is the result of the second call. -/
def twoCapCalls (c1 c2 : String) : Except CapErr CapState :=
  (cap_req capState0 "p1" c1 none).bind (fun st1 => cap_req st1 "p2" c2 none)

/-! ## `AbstractBot.on_error` (src/sopel/irc/__init__.py:384-411) -/

/-- The `dt_seconds` computation of `on_error` (lines 399-402): seconds since
the last fatal error, `0.0` when there was none. -/
def dtSeconds (last_error_timestamp : Option ℚ) (now : ℚ) : ℚ :=
  match last_error_timestamp with
  | some t => now - t
  | none => 0

/-- `AbstractBot.on_error`, mirroring lines 397-411: takes the error counter
and last-error timestamp on entry plus the current time; returns `none` when
the process is terminated (`os._exit(1)`), otherwise the new
`(error_count, last_error_timestamp)`. `int(max(0, error_count -
dt_seconds // 5))` is `ℤ`-valued `max` with the floored quotient, converted
back to `ℕ` (the value is already non-negative). -/
def on_error (error_count : ℕ) (last_error_timestamp : Option ℚ) (now : ℚ) :
    Option (ℕ × ℚ) :=
  if 10 < error_count then
    let dt_seconds := dtSeconds last_error_timestamp now
    if dt_seconds < 5 then none  -- too many errors: os._exit(1)
    else
      -- remove 1 error per full 5s that passed since last error
      let decayed := Int.toNat (max 0 ((error_count : ℤ) - ⌊dt_seconds / 5⌋))
      some (decayed + 1, now)
  else some (error_count + 1, now)

end Sopel

namespace Sopel

/-- C6: for every recipient string, `safe_text_length(recipient)` equals
`LINELEN` (512 when the server has not advertised it) minus 14 fixed framing
bytes, minus the hostmask length (the exact hostmask length when known,
otherwise `len(nick) + min(len(user), USERLEN defaulting to 9) + 66`), minus
the UTF-8 byte length of the recipient. -/
theorem c6_safe_text_length (env : BotEnv) (recipient : String) :
    safe_text_length env recipient =
      ((env.linelen.getD 512 : ℕ) : ℤ) - 14
      - (match env.hostmask with
         | some h => ((h.length : ℕ) : ℤ)
         | none =>
             ((env.nick.length : ℕ) : ℤ)
             + ((min env.user.length (env.userlen.getD 9) : ℕ) : ℤ) + 66)
      - ((utf8Len recipient : ℕ) : ℤ) := by
  unfold safe_text_length
  cases env.hostmask <;> simp <;> ring

/-! ### Helper lemmas about `say` -/

theorem string_append_empty (s : String) : s ++ "" = s := by
  cases s with
  | mk d => show String.mk (d ++ []) = String.mk d; simp

/-- With the default parameters (`max_messages=1`, empty truncation and
trailing) the text-processing stage leaves the text untouched and produces no
excess. -/
theorem processText_default (env : BotEnv) (text recipient : String) :
    processText env text recipient 1 "" "" = (text, "") := by
  unfold processText
  simp [string_append_empty]

/-- The sleep duration computed by the flood-control stage, extracted from
all branches of `sayDest`. -/
theorem sayDest_sleepT (cfg : FloodCfg) (recipient text : String)
    (dest : DestState) (t1 t2 : ℚ) :
    (sayDest cfg recipient text dest t1 t2).sleepT =
      sleepOf cfg text.length (elapsedOf dest t1)
        (refillOf cfg dest (elapsedOf dest t1)) := by
  simp only [sayDest]
  repeat' split
  all_goals rfl

/-- The complete shape of a `sayDest` result: either an anti-loop drop (with
the refilled bucket and untouched history) or a send of some text (with the
bucket decremented and the sent text recorded). -/
theorem sayDest_shape (cfg : FloodCfg) (recipient text : String)
    (dest : DestState) (t1 t2 : ℚ) :
    (sayDest cfg recipient text dest t1 t2 =
      ⟨.dropped,
        sleepOf cfg text.length (elapsedOf dest t1)
          (refillOf cfg dest (elapsedOf dest t1)),
        ⟨dest.messages, refillOf cfg dest (elapsedOf dest t1)⟩⟩)
    ∨ (∃ t, sayDest cfg recipient text dest t1 t2 =
      ⟨.sent recipient t,
        sleepOf cfg text.length (elapsedOf dest t1)
          (refillOf cfg dest (elapsedOf dest t1)),
        ⟨pushMax10 dest.messages (t2, safe t),
          refillOf cfg dest (elapsedOf dest t1) - 1⟩⟩) := by
  simp only [sayDest]
  split
  · split
    · split
      · exact .inl rfl
      · exact .inr ⟨_, rfl⟩
    · exact .inr ⟨_, rfl⟩
  · exact .inr ⟨_, rfl⟩

/-- The action taken by `sayDest` is always a send to the recipient or an
anti-loop drop. -/
theorem sayDest_action_cases (cfg : FloodCfg) (recipient text : String)
    (dest : DestState) (t1 t2 : ℚ) :
    (∃ t, (sayDest cfg recipient text dest t1 t2).action = .sent recipient t)
    ∨ (sayDest cfg recipient text dest t1 t2).action = .dropped := by
  rcases sayDest_shape cfg recipient text dest t1 t2 with h | ⟨t, h⟩
  · exact .inr (by rw [h])
  · exact .inl ⟨t, by rw [h]⟩

/-- After a send, the bucket is the refilled value minus one (`ℕ` subtraction
floors at zero). -/
theorem sayDest_flood_left_sent (cfg : FloodCfg) (recipient text : String)
    (dest : DestState) (t1 t2 : ℚ) (t : String)
    (h : (sayDest cfg recipient text dest t1 t2).action = .sent recipient t) :
    (sayDest cfg recipient text dest t1 t2).dest.flood_left =
      refillOf cfg dest (elapsedOf dest t1) - 1 := by
  rcases sayDest_shape cfg recipient text dest t1 t2 with hs | ⟨t', hs⟩
  · rw [hs] at h; exact absurd h (by simp)
  · rw [hs]

/-- After an anti-loop drop, the bucket keeps the refilled value (the refill
write has already happened by the time of the early return). -/
theorem sayDest_flood_left_dropped (cfg : FloodCfg) (recipient text : String)
    (dest : DestState) (t1 t2 : ℚ)
    (h : (sayDest cfg recipient text dest t1 t2).action = .dropped) :
    (sayDest cfg recipient text dest t1 t2).dest.flood_left =
      refillOf cfg dest (elapsedOf dest t1) := by
  rcases sayDest_shape cfg recipient text dest t1 t2 with hs | ⟨t', hs⟩
  · rw [hs]
  · rw [hs] at h; exact absurd h (by simp)

/-- When the anti-loop guard does not fire, `sayDest` sends the text
unchanged. -/
theorem sayDest_action_no_loop (cfg : FloodCfg) (recipient text : String)
    (dest : DestState) (t1 t2 : ℚ)
    (h : ¬(0 < min 10 cfg.antiloop_threshold
           ∧ elapsedOf dest t1 < cfg.antiloop_window)) :
    (sayDest cfg recipient text dest t1 t2).action = .sent recipient text := by
  simp only [sayDest]
  rw [if_neg h]

/-- Under a non-negative elapsed time, the claim-side `ℤ` refill formula and
the embedded `ℕ` refill agree. -/
theorem refillSpecZ_eq (cfg : FloodCfg) (dest : DestState) (elapsed : ℚ)
    (helapsed : 0 ≤ elapsed) :
    refillSpecZ cfg dest elapsed = ((refillOf cfg dest elapsed : ℕ) : ℤ) := by
  unfold refillSpecZ refillOf
  split
  · have h0 : ((Int.toNat ⌊elapsed⌋ : ℕ) : ℤ) = ⌊elapsed⌋ :=
      Int.toNat_of_nonneg (Int.floor_nonneg.mpr helapsed)
    push_cast
    rw [h0]
  · rfl

/-- The embedded sleep duration equals the claim-side
`max(0, wait - elapsed)` form. -/
theorem sleepOf_eq_spec (cfg : FloodCfg) (dest : DestState) (textLen : ℕ)
    (elapsed : ℚ) (helapsed : 0 ≤ elapsed) :
    sleepOf cfg textLen elapsed (refillOf cfg dest elapsed) =
      (if refillSpecZ cfg dest elapsed = 0 then
        max 0 (waitSpec cfg textLen - elapsed)
       else 0) := by
  have hQ := refillSpecZ_eq cfg dest elapsed helapsed
  have hiff : refillSpecZ cfg dest elapsed = 0 ↔ refillOf cfg dest elapsed = 0 := by
    rw [hQ]; exact Int.natCast_eq_zero
  unfold sleepOf
  by_cases hn : refillOf cfg dest elapsed = 0
  · rw [if_pos hn, if_pos (hiff.mpr hn)]
    show (if elapsed < waitSpec cfg textLen then waitSpec cfg textLen - elapsed
          else 0) = max 0 (waitSpec cfg textLen - elapsed)
    by_cases hlt : elapsed < waitSpec cfg textLen
    · rw [if_pos hlt, max_eq_right (by linarith)]
    · rw [if_neg hlt, max_eq_left (by linarith [le_of_not_lt hlt])]
  · rw [if_neg hn, if_neg (fun hc => hn (hiff.mp hc))]

/-- C2 counterexample: with the server advertising `LINELEN=100`, nick `bot`,
user `b`, the computed safe length for `#chan` is 11; yet
`say("x"*150, "#chan")` with default parameters (`max_messages=1`, empty
truncation and trailing) sends exactly one PRIVMSG containing the ENTIRE
150-character text — not the text hard-cut at the safe length — because the
splitting path of `say` only runs when `max_messages > 1` or a truncation or
trailing string is given (src/sopel/irc/__init__.py:795-809). -/
theorem c2_counterexample :
    safe_text_length envLinelen100 "#chan" = 11 ∧
    xText.length = 150 ∧
    say true envLinelen100 floodDefaults ⟨[], 4⟩ xText "#chan" 1 "" "" 0 0 =
      .ok ⟨.sent "#chan" xText, 0, ⟨[(0, xText)], 3⟩, none⟩ ∧
    SayAction.sent "#chan" xText ≠
      SayAction.sent "#chan" (String.mk (List.replicate 11 'x')) := by
  refine ⟨by decide, by decide, ?_, by decide⟩
  with_unfolding_all decide

/-- C2 amended: in the C2 scenario (`LINELEN=100`, nick `bot`, user `b`, a
fresh destination), `say("x"*150, "#chan")` with default parameters sends
exactly one PRIVMSG whose text is the entire 150-character input unchanged,
and nothing more is sent; no client-side cut at the computed safe length
happens (any truncation is left to the transport's 510-byte raw-line
safety net, which this text does not reach). -/
theorem c2_amended (cfg : FloodCfg) (t1 t2 : ℚ)
    (hwin : cfg.antiloop_window ≤ 300) :
    ∃ r, say true envLinelen100 cfg ⟨[], cfg.flood_burst_lines⟩ xText "#chan"
        1 "" "" t1 t2 = .ok r ∧
      r.action = .sent "#chan" xText ∧ r.resend = none := by
  refine ⟨_, rfl, ?_, ?_⟩
  · show (sayFull envLinelen100 cfg ⟨[], cfg.flood_burst_lines⟩ xText "#chan"
        1 "" "" t1 t2).action = .sent "#chan" xText
    unfold sayFull
    rw [processText_default]
    exact sayDest_action_no_loop _ _ _ _ _ _
      (by
        rintro ⟨-, hlt⟩
        have : elapsedOf ⟨[], cfg.flood_burst_lines⟩ t1 = 300 := rfl
        rw [this] at hlt
        linarith)
  · show (sayFull envLinelen100 cfg ⟨[], cfg.flood_burst_lines⟩ xText "#chan"
        1 "" "" t1 t2).resend = none
    unfold sayFull
    rw [processText_default]
    simp

/-- C2 amended witness at concrete inputs. -/
theorem c2_amended_witness :
    (floodDefaults.antiloop_window ≤ 300) ∧
    ∃ r, say true envLinelen100 floodDefaults
        ⟨[], floodDefaults.flood_burst_lines⟩ xText "#chan" 1 "" "" 0 0 =
        .ok r ∧ r.action = .sent "#chan" xText ∧ r.resend = none :=
  ⟨by norm_num [floodDefaults], c2_amended floodDefaults 0 0 (by norm_num [floodDefaults])⟩

/-- C4: flood control in `say`: per destination, when the bucket is empty it
is refilled to `min(flood_burst_lines, floor(elapsed) * flood_refill_rate)`;
if the bucket is still empty, the wait time is
`min(flood_empty_wait + penalty, flood_max_wait)` with
`penalty = max(0, len(text) - flood_text_length) / (flood_text_length *
flood_penalty_ratio)` when the ratio is positive (else 0), and the caller
sleeps exactly `max(0, wait - elapsed)` before the transport send; the call
always ends in a send (or an anti-loop drop), never a rejection, and after a
send the bucket is decremented by one, floored at zero. The hypotheses scope
to a monotone clock (non-negative elapsed time) and to configurations where
`flood_text_length` is positive whenever the penalty ratio is (otherwise the
Python code raises `ZeroDivisionError` when computing the penalty). -/
theorem c4_flood_control (cfg : FloodCfg) (recipient text : String)
    (dest : DestState) (t1 t2 : ℚ)
    (helapsed : 0 ≤ elapsedOf dest t1)
    (hlen : 0 < cfg.flood_penalty_rate → 0 < cfg.flood_text_length) :
    (sayDest cfg recipient text dest t1 t2).sleepT =
      (if refillSpecZ cfg dest (elapsedOf dest t1) = 0 then
        max 0 (waitSpec cfg text.length - elapsedOf dest t1)
       else 0) ∧
    ((∃ t, (sayDest cfg recipient text dest t1 t2).action =
        SayAction.sent recipient t) ∨
      (sayDest cfg recipient text dest t1 t2).action = SayAction.dropped) ∧
    (∀ t, (sayDest cfg recipient text dest t1 t2).action =
        SayAction.sent recipient t →
      ((sayDest cfg recipient text dest t1 t2).dest.flood_left : ℤ) =
        max 0 (refillSpecZ cfg dest (elapsedOf dest t1) - 1)) ∧
    ((sayDest cfg recipient text dest t1 t2).action = SayAction.dropped →
      ((sayDest cfg recipient text dest t1 t2).dest.flood_left : ℤ) =
        refillSpecZ cfg dest (elapsedOf dest t1)) := by
  refine ⟨?_, sayDest_action_cases cfg recipient text dest t1 t2, ?_, ?_⟩
  · rw [sayDest_sleepT]
    exact sleepOf_eq_spec cfg dest text.length (elapsedOf dest t1) helapsed
  · intro t h
    rw [sayDest_flood_left_sent cfg recipient text dest t1 t2 t h,
      refillSpecZ_eq cfg dest (elapsedOf dest t1) helapsed]
    generalize refillOf cfg dest (elapsedOf dest t1) = n
    omega
  · intro h
    rw [sayDest_flood_left_dropped cfg recipient text dest t1 t2 h,
      refillSpecZ_eq cfg dest (elapsedOf dest t1) helapsed]

/-- C4 witness at concrete inputs: a destination with an empty bucket and a
recent message half a second old; the call sleeps `0.7 - 0.5 = 0.2` seconds
and sends, leaving the bucket at zero. -/
theorem c4_witness :
    (0 ≤ elapsedOf ⟨[(0, "a")], 0⟩ ((1 : ℚ)/2)) ∧
    ((0 : ℚ) < floodDefaults.flood_penalty_rate →
      0 < floodDefaults.flood_text_length) ∧
    ((sayDest floodDefaults "#c" "bb" ⟨[(0, "a")], 0⟩ ((1 : ℚ)/2) 1).sleepT =
      (if refillSpecZ floodDefaults ⟨[(0, "a")], 0⟩
            (elapsedOf ⟨[(0, "a")], 0⟩ ((1 : ℚ)/2)) = 0 then
        max 0 (waitSpec floodDefaults ("bb".length) -
          elapsedOf ⟨[(0, "a")], 0⟩ ((1 : ℚ)/2))
       else 0)) := by
  refine ⟨by with_unfolding_all decide, by norm_num [floodDefaults], ?_⟩
  exact (c4_flood_control floodDefaults "#c" "bb" ⟨[(0, "a")], 0⟩ ((1 : ℚ)/2) 1
    (by with_unfolding_all decide) (by norm_num [floodDefaults])).1

/-- C5 counterexample: a configuration with `antiloop_threshold = 0` (the
documented way to disable loop suppression). All conditions of the claim
hold — 1 second elapsed is within the 100-second window, the text occurs 0
times, which is at least the capped threshold `min 10 0 = 0`, and the
placeholder occurs 0 times, which is at least `antiloop_silent_after = 0` —
so the claim says the call must return without contacting the transport; yet
the code sends the original text, because it skips loop suppression entirely
when the capped threshold is 0 (line 874: `if antiloop_threshold > 0`). -/
theorem c5_counterexample :
    elapsedOf ⟨[(0, "x")], 5⟩ 1 < cfgLoopZero.antiloop_window ∧
    min 10 cfgLoopZero.antiloop_threshold ≤
      (([(0, "x")] : List (ℚ × String)).map Prod.snd).count "hello" ∧
    cfgLoopZero.antiloop_silent_after ≤
      (([(0, "x")] : List (ℚ × String)).map Prod.snd).count
        cfgLoopZero.antiloop_repeat_text ∧
    (sayDest cfgLoopZero "#c" "hello" ⟨[(0, "x")], 5⟩ 1 1).action =
      .sent "#c" "hello" ∧
    "hello" ≠ cfgLoopZero.antiloop_repeat_text := by
  refine ⟨by with_unfolding_all decide, by decide, by decide, ?_, by decide⟩
  with_unfolding_all decide

/-- C5 amended: loop suppression in `say`, provided the capped threshold is
positive (a zero `antiloop_threshold` disables suppression): when the time
since the last send to the destination is within `antiloop_window` and the
text about to be sent occurs at least `min(10, antiloop_threshold)` times in
the destination's recorded recent messages, the placeholder
`antiloop_repeat_text` is sent instead of the text; and if the recorded
messages already contain the placeholder at least `antiloop_silent_after`
times, the call returns without contacting the transport at all. -/
theorem c5_amended (cfg : FloodCfg) (recipient text : String)
    (dest : DestState) (t1 t2 : ℚ)
    (hthr : 0 < cfg.antiloop_threshold)
    (hwin : elapsedOf dest t1 < cfg.antiloop_window)
    (hcount : min 10 cfg.antiloop_threshold ≤
      (dest.messages.map Prod.snd).count text) :
    (if cfg.antiloop_silent_after ≤
        (dest.messages.map Prod.snd).count cfg.antiloop_repeat_text then
      (sayDest cfg recipient text dest t1 t2).action = .dropped
     else
      (sayDest cfg recipient text dest t1 t2).action =
        .sent recipient cfg.antiloop_repeat_text) := by
  have houter : 0 < min 10 cfg.antiloop_threshold ∧
      elapsedOf dest t1 < cfg.antiloop_window :=
    ⟨by omega, hwin⟩
  by_cases hsil : cfg.antiloop_silent_after ≤
      (dest.messages.map Prod.snd).count cfg.antiloop_repeat_text
  · rw [if_pos hsil]
    simp only [sayDest]
    rw [if_pos houter, if_pos hcount, if_pos hsil]
  · rw [if_neg hsil]
    simp only [sayDest]
    rw [if_pos houter, if_pos hcount, if_neg hsil]

/-- C5 amended witness: with threshold 1 and a history containing `spam`
once, saying `spam` again within the window sends the placeholder `***`
instead. -/
theorem c5_amended_witness :
    (0 < cfgLoopOne.antiloop_threshold) ∧
    (elapsedOf ⟨[(0, "spam")], 5⟩ 1 < cfgLoopOne.antiloop_window) ∧
    (min 10 cfgLoopOne.antiloop_threshold ≤
      (([(0, "spam")] : List (ℚ × String)).map Prod.snd).count "spam") ∧
    (sayDest cfgLoopOne "#c" "spam" ⟨[(0, "spam")], 5⟩ 1 1).action =
      .sent "#c" cfgLoopOne.antiloop_repeat_text := by
  refine ⟨by decide, by with_unfolding_all decide, by decide, ?_⟩
  have h := c5_amended cfgLoopOne "#c" "spam" ⟨[(0, "spam")], 5⟩ 1 1
    (by decide) (by with_unfolding_all decide) (by decide)
  rwa [if_neg (by decide)] at h

/-! ### Capability requests (C3, C8) -/

/-- C3 counterexample: two unprefixed `cap_req` calls for the name `foo`,
the first with `arg="a"`, the second with `arg="b"`. After the first call a
request for `foo` with `arg="a"` is recorded, so the claim requires the
second call to raise a capability conflict; instead it succeeds (and even
replaces the recorded entry), because the conflict check fetches the entry
under the key `capability[1:]` — here `"oo"` — before the prefix is parsed
(src/sopel/irc/__init__.py:522-527), and nothing is recorded under `"oo"`. -/
theorem c3_counterexample :
    cap_req capState0 "p1" "foo" (some "a") =
      .ok ⟨[("foo", [⟨"", "p1", some "a"⟩])], false, []⟩ ∧
    alookup ([("foo", [(⟨"", "p1", some "a"⟩ : CapReq)])]) "foo" =
      some [⟨"", "p1", some "a"⟩] ∧
    some "a" ≠ some "b" ∧
    cap_req ⟨[("foo", [⟨"", "p1", some "a"⟩])], false, []⟩ "p2" "foo"
        (some "b") =
      .ok ⟨[("foo", [⟨"", "p2", some "b"⟩])], false, []⟩ := by
  refine ⟨by decide, by decide, by decide, by decide⟩

/-- C3 amended: the second call raises a capability conflict whenever the
request list recorded under the key it actually consults —
`capability[1:]`, the capability string with its first character stripped —
contains a request with a different `arg`. For a second call prefixed with
`-` or `=` this key is exactly the capability name, so the claim holds as
stated for prefixed calls; an unprefixed second call consults the wrong key
(the name minus its first character) and does not raise in general. -/
theorem c3_amended (st : CapState) (plugin_name capability : String)
    (arg : Option String)
    (h : ∃ ent ∈ entryOf st capability, ent.arg ≠ arg) :
    cap_req st plugin_name capability arg = .error .conflict := by
  obtain ⟨ent, hmem, hne⟩ := h
  have hany : ((alookup st.cap_reqs (pySlice1 capability)).getD []).any
      (fun e => decide (e.arg ≠ arg)) = true := by
    rw [List.any_eq_true]
    exact ⟨ent, hmem, by simpa using hne⟩
  simp only [cap_req]
  rw [if_pos hany]

/-- C3 amended witness: a recorded `=foo` request with `arg="a"`, followed by
a `=foo` request with `arg="b"`, raises the conflict. -/
theorem c3_amended_witness :
    (∃ ent ∈ entryOf ⟨[("foo", [⟨"=", "p1", some "a"⟩])], false, []⟩ "=foo",
      ent.arg ≠ some "b") ∧
    cap_req ⟨[("foo", [⟨"=", "p1", some "a"⟩])], false, []⟩ "p2" "=foo"
        (some "b") = .error .conflict :=
  ⟨by decide,
    c3_amended ⟨[("foo", [⟨"=", "p1", some "a"⟩])], false, []⟩ "p2" "=foo"
      (some "b") (by decide)⟩

/-- C8: for every capability name, a `cap_req` call with the `-` (forbid)
prefix raises when any already-recorded request for that name is non-forbid,
and a call with the `=` (require) prefix raises when any already-recorded
request for the name is a forbid; in particular requesting `-cap-a` then
`=cap-a`, or `=cap-a` then `-cap-a`, raises on the second call. (For a
prefixed capability string the key consulted, `capability[1:]`, is exactly
the name. The error raised is `.conflict` at the two
`'Capability conflict'` sites, or `.postRegistration` when the state also
triggers the post-registration guard first — the spec's taxonomy calls both
`CapabilityConflictError`.) -/
theorem c8_forbid_require_conflict :
    (∀ (st : CapState) (p : String) (arg : Option String)
        (capability : String),
      pyHead capability = "-" →
      (∃ ent ∈ entryOf st capability, ent.pfx ≠ "-") →
      ∃ e, cap_req st p capability arg = .error e) ∧
    (∀ (st : CapState) (p : String) (arg : Option String)
        (capability : String),
      pyHead capability = "=" →
      (∃ ent ∈ entryOf st capability, ent.pfx = "-") →
      ∃ e, cap_req st p capability arg = .error e) ∧
    twoCapCalls "-cap-a" "=cap-a" = .error .conflict ∧
    twoCapCalls "=cap-a" "-cap-a" = .error .conflict := by
  refine ⟨?_, ?_, by decide, by decide⟩
  · intro st p arg capability hpfx hex
    by_cases h1 : ((alookup st.cap_reqs (pySlice1 capability)).getD []).any
        (fun e => decide (e.arg ≠ arg)) = true
    · exact ⟨.conflict, by simp only [cap_req]; rw [if_pos h1]⟩
    · obtain ⟨ent, hmem, hpf⟩ := hex
      have hany2 : ((alookup st.cap_reqs (pySlice1 capability)).getD []).any
          (fun e => decide (e.pfx ≠ "-")) = true := by
        rw [List.any_eq_true]
        exact ⟨ent, hmem, by simpa using hpf⟩
      by_cases h2 : st.connection_registered
          ∧ pySlice1 capability ∈ st.enabled_capabilities
      · exact ⟨.postRegistration, by
          simp only [cap_req]
          rw [if_neg h1, if_pos hpfx, if_pos h2]⟩
      · exact ⟨.conflict, by
          simp only [cap_req]
          rw [if_neg h1, if_pos hpfx, if_neg h2, if_pos hany2]⟩
  · intro st p arg capability hpfx hex
    by_cases h1 : ((alookup st.cap_reqs (pySlice1 capability)).getD []).any
        (fun e => decide (e.arg ≠ arg)) = true
    · exact ⟨.conflict, by simp only [cap_req]; rw [if_pos h1]⟩
    · obtain ⟨ent, hmem, hpf⟩ := hex
      have hany2 : ((alookup st.cap_reqs (pySlice1 capability)).getD []).any
          (fun e => decide (e.pfx = "-")) = true := by
        rw [List.any_eq_true]
        exact ⟨ent, hmem, by simpa using hpf⟩
      have hnotdash : ¬ pyHead capability = "-" := by rw [hpfx]; decide
      by_cases h2 : st.connection_registered
          ∧ (if pyHead capability ≠ "=" then capability
             else pySlice1 capability) ∉ st.enabled_capabilities
      · exact ⟨.postRegistration, by
          simp only [cap_req]
          rw [if_neg h1, if_neg hnotdash, if_pos h2]⟩
      · refine ⟨.conflict, ?_⟩
        simp only [cap_req]
        rw [if_neg h1, if_neg hnotdash, if_neg h2,
          if_pos ⟨hany2, by rw [hpfx]; decide⟩]

/-- C8 witness: a recorded require for `cap-a` followed by a forbid request
raises; the concrete two-call sequences are part of the theorem itself. -/
theorem c8_witness :
    (pyHead "-cap-a" = "-") ∧
    (∃ ent ∈ entryOf ⟨[("cap-a", [⟨"=", "p1", none⟩])], false, []⟩ "-cap-a",
      ent.pfx ≠ "-") ∧
    (∃ e, cap_req ⟨[("cap-a", [⟨"=", "p1", none⟩])], false, []⟩ "p2" "-cap-a"
      none = .error e) :=
  ⟨by decide, by decide,
    c8_forbid_require_conflict.1 ⟨[("cap-a", [⟨"=", "p1", none⟩])], false, []⟩
      "p2" none "-cap-a" (by decide) (by decide)⟩

/-! ### Fatal-error policy (C7) -/

/-- C7: every invocation of `on_error` increments the error counter by one;
when the counter on entry exceeds 10, if less than 5 seconds elapsed since
the previous fatal error the process terminates immediately (`none`),
otherwise the counter is first decreased by one unit per full 5-second
interval elapsed, bounded below at zero, and the session continues — the
counter then still being incremented and the last-error timestamp updated
to the current time. -/
theorem c7_fatal_error_policy (c : ℕ) (last : Option ℚ) (now : ℚ) :
    (c ≤ 10 → on_error c last now = some (c + 1, now)) ∧
    (10 < c → dtSeconds last now < 5 → on_error c last now = none) ∧
    (10 < c → 5 ≤ dtSeconds last now →
      on_error c last now =
        some (Int.toNat (max 0 ((c : ℤ) - ⌊dtSeconds last now / 5⌋)) + 1,
          now)) := by
  refine ⟨?_, ?_, ?_⟩
  · intro h
    simp only [on_error]
    rw [if_neg (by omega)]
  · intro h hdt
    simp only [on_error]
    rw [if_pos h, if_pos hdt]
  · intro h hdt
    simp only [on_error]
    rw [if_pos h, if_neg (not_lt.mpr hdt)]

/-- C7 witness: a below-threshold call increments; above threshold, a fatal
error 1 second after the last one terminates, while one 100 seconds later
decays the counter by 20 units (floored at 0) and continues with counter 1. -/
theorem c7_witness :
    on_error 3 none 50 = some (4, 50) ∧
    on_error 12 (some 0) 1 = none ∧
    on_error 12 (some 0) 100 = some (1, 100) := by
  refine ⟨(c7_fatal_error_policy 3 none 50).1 (by norm_num),
    (c7_fatal_error_policy 12 (some 0) 1).2.1 (by norm_num) ?_, ?_⟩
  · show dtSeconds (some 0) 1 < 5
    norm_num [dtSeconds]
  · have h := (c7_fatal_error_policy 12 (some 0) 100).2.2 (by norm_num)
      (by with_unfolding_all decide)
    rw [h]
    with_unfolding_all decide

/-! ### Batch handling (C1) and backend precondition (C9) -/

/-- C1 code behaviour, evaluated at the failing input: after processing the
BATCH open marker for `r1`, an inbound event tagged `batch=r1` is dispatched
IMMEDIATELY (and never buffered into the batch — the append branch is a
`pass  # todo` stub); processing the matching close marker dispatches only
the marker itself and releases nothing (the close branch is a no-op stub
containing a Python syntax error at src/sopel/irc/__init__.py:327, and the
batch is never removed from the index); and a close marker for an unopened
reference is dispatched like any other event, with no ingestion-error drop.
Each of these contradicts the claim, which requires the `k` tagged events to
be dispatched exactly at the close marker and an unopened close to be a
logged, non-fatal error with no dispatch. -/
theorem c1_code_behavior :
    on_message true ircState0 batchOpenR1 =
      .ok (ircStateR1, [], [batchOpenR1]) ∧
    on_message true ircStateR1 taggedEventR1 =
      .ok (ircStateR1, [], [taggedEventR1]) ∧
    on_message true ircStateR1 batchCloseR1 =
      .ok (ircStateR1, [], [batchCloseR1]) ∧
    on_message true ircState0 batchCloseUnopened =
      .ok (ircState0, [], [batchCloseUnopened]) := by
  refine ⟨by decide, by decide, by decide, by decide⟩

/-- C9: every public session API that needs the transport — `say`, `notice`,
`join`, `part`, `kick`, `quit`, `write`, and the connection handlers
`on_connect` and `on_message` — returns the backend-not-initialized
`RuntimeError` when called with no backend, before any wire activity (the
error result carries no backend calls); with a backend present, none of
these calls produces that error. -/
theorem c9_backend_guard :
    (∀ (env : BotEnv) (cfg : FloodCfg) (dest : DestState)
        (text recipient : String) (mm : ℕ) (trunc trail : String) (t1 t2 : ℚ),
      isBackendErr (say false env cfg dest text recipient mm trunc trail t1 t2)
        = true) ∧
    (∀ (env : BotEnv) (cfg : FloodCfg) (dest : DestState)
        (text recipient : String) (mm : ℕ) (trunc trail : String) (t1 t2 : ℚ),
      isBackendErr (say true env cfg dest text recipient mm trunc trail t1 t2)
        = false) ∧
    (∀ text dest, isBackendErr (notice false text dest) = true) ∧
    (∀ text dest, isBackendErr (notice true text dest) = false) ∧
    (∀ channel pw, isBackendErr (join false channel pw) = true) ∧
    (∀ channel pw, isBackendErr (join true channel pw) = false) ∧
    (∀ channel msg, isBackendErr (part false channel msg) = true) ∧
    (∀ channel msg, isBackendErr (part true channel msg) = false) ∧
    (∀ nick channel text, isBackendErr (kick false nick channel text) = true) ∧
    (∀ nick channel text, isBackendErr (kick true nick channel text) = false) ∧
    (∀ message, isBackendErr (quit false message) = true) ∧
    (∀ message, isBackendErr (quit true message) = false) ∧
    (∀ args text, isBackendErr (write false args text) = true) ∧
    (∀ args text, isBackendErr (write true args text) = false) ∧
    (∀ cfg, isBackendErr (on_connect false cfg) = true) ∧
    (∀ cfg, isBackendErr (on_connect true cfg) = false) ∧
    (∀ st pt, isBackendErr (on_message false st pt) = true) ∧
    (∀ st pt, isBackendErr (on_message true st pt) = false) := by
  refine ⟨fun _ _ _ _ _ _ _ _ _ _ => rfl, fun _ _ _ _ _ _ _ _ _ _ => rfl,
    fun _ _ => rfl, fun _ _ => rfl, fun _ _ => rfl, fun _ _ => rfl,
    fun _ _ => rfl, fun _ _ => rfl, fun _ _ _ => rfl, fun _ _ _ => rfl,
    fun _ => rfl, fun _ => rfl, fun _ _ => rfl, fun _ _ => rfl,
    fun _ => rfl, fun _ => rfl, fun _ _ => rfl, ?_⟩
  intro st pt
  simp only [on_message]
  rw [if_neg (by simp : ¬(true = false))]
  repeat' split
  all_goals rfl


/-! ### Expression sandbox (C10) -/

theorem binOps_isSome (pc : ℤ → ℤ → Bool) (op : PyBinOp) :
    (binOps pc op).isSome = supportedBin op := by
  cases op <;> rfl

/-- An evaluation that produces a value only ever visits supported
constructs: a successful result implies the expression was pure int/float
arithmetic over the supported operators. -/
theorem evalNode_ok_usesOnlyArith (pc : ℤ → ℤ → Bool) (tmo : Bool) :
    ∀ (tree : PyAst) (v : PyVal),
      evalNode pc tmo tree = .ok v → usesOnlyArith tree = true := by
  intro tree
  induction tree with
  | constant c =>
      intro v h
      cases c <;> first
      | rfl
      | simp [evalNode] at h
  | binOp op l r ihl ihr =>
      intro v h
      simp only [evalNode] at h
      cases hop : binOps pc op with
      | none => rw [hop] at h; exact absurd h (by simp)
      | some f =>
          rw [hop] at h
          have hsup : supportedBin op = true := by
            rw [← binOps_isSome pc, hop]; rfl
          cases hl : evalNode pc tmo l with
          | error e => rw [hl] at h; simp [Bind.bind, Except.bind] at h
          | ok lv =>
              cases hr : evalNode pc tmo r with
              | error e =>
                  rw [hl, hr] at h; simp [Bind.bind, Except.bind] at h
              | ok rv =>
                  simp [usesOnlyArith, hsup, ihl lv hl, ihr rv hr]
  | unaryOp op e ih =>
      intro v h
      simp only [evalNode] at h
      cases hop : unOps op with
      | none => rw [hop] at h; exact absurd h (by simp)
      | some f =>
          rw [hop] at h
          have hsup : supportedUn op = true := by
            unfold supportedUn; rw [hop]; rfl
          cases he : evalNode pc tmo e with
          | error e2 => rw [he] at h; simp [Bind.bind, Except.bind] at h
          | ok v2 => simp [usesOnlyArith, hsup, ih v2 he]
  | name id => intro v h; simp [evalNode] at h
  | call f a ihf iha => intro v h; simp [evalNode] at h
  | attr obj fld ih => intro v h; simp [evalNode] at h

/-- C10 counterexample: the expression `1/0` consists only of int constants
and the supported `/` operator, parses fine, and raises neither `ValueError`
nor `ExpressionEvaluator.Error`, nor does it return a value: it raises
`ZeroDivisionError` (`operator.truediv(1, 0)` propagates uncaught through
`eval_equation`), an outcome outside the claim's taxonomy. -/
theorem c10_counterexample :
    eval_equation (fun _ _ => true) false
        (.binOp .div (.constant (.int 1)) (.constant (.int 0))) =
      .error .zeroDivision ∧
    usesOnlyArith
        (.binOp .div (.constant (.int 1)) (.constant (.int 0))) = true ∧
    ¬ claimedOutcome (eval_equation (fun _ _ => true) false
        (.binOp .div (.constant (.int 1)) (.constant (.int 0)))) := by
  refine ⟨?_, by decide, ?_⟩
  · with_unfolding_all decide
  · have h : eval_equation (fun _ _ => true) false
        (.binOp .div (.constant (.int 1)) (.constant (.int 0))) =
        .error .zeroDivision := by with_unfolding_all decide
    rw [h]
    rintro (⟨v, hv⟩ | hv | hv) <;> simp at hv

/-- C10 amended: over the AST-level embedding, (1) every evaluation either
returns a number — an int, a float, or a complex (Python 3 returns a
complex for a negative base raised to a fractional power, which then
propagates) — or raises `ExpressionEvaluator.Error`, `ValueError`,
`ZeroDivisionError` (zero divisors of `/`, `//`, `%`, and a zero base to a
negative or complex power), or `TypeError` (an int base outside 0 and 1
with a negative int exponent makes `pow_complexity` return a complex and
its comparison with 0.5 raise; `//` and `%` on a complex operand raise it
too); outside this exact-arithmetic model, IEEE float arithmetic — the
`pow_complexity` estimate included — can additionally raise
`OverflowError`. (2) An expression containing any construct other than
int/float constants combined with the supported operators (binary plus,
minus, times, the divisions and modulo, and power, with BitXor also treated
as power; unary plus and minus) is never evaluated to a value; and (3) a
name, a call, an attribute access, or a non-numeric constant raises
`ExpressionEvaluator.Error` directly. (4) Concretely, `2 ** -2` raises
`TypeError`, and (5) `(-2.0) ** 0.5` returns a complex, not an int/float —
both independently of the complexity oracle, which those paths never
reach. -/
theorem c10_amended :
    (∀ (pc : ℤ → ℤ → Bool) (tmo : Bool) (tree : PyAst),
      (∃ v, eval_equation pc tmo tree = .ok v) ∨
      eval_equation pc tmo tree = .error .evalError ∨
      eval_equation pc tmo tree = .error .valueError ∨
      eval_equation pc tmo tree = .error .zeroDivision ∨
      eval_equation pc tmo tree = .error .typeError) ∧
    (∀ (pc : ℤ → ℤ → Bool) (tmo : Bool) (tree : PyAst),
      usesOnlyArith tree = false →
      ∀ v, eval_equation pc tmo tree ≠ .ok v) ∧
    (∀ (pc : ℤ → ℤ → Bool) (tmo : Bool) (id fld s : String)
        (f a obj : PyAst),
      eval_equation pc tmo (.name id) = .error .evalError ∧
      eval_equation pc tmo (.call f a) = .error .evalError ∧
      eval_equation pc tmo (.attr obj fld) = .error .evalError ∧
      eval_equation pc tmo (.constant (.str s)) = .error .evalError ∧
      eval_equation pc tmo (.constant .noneConst) = .error .evalError) ∧
    (∀ (pc : ℤ → ℤ → Bool),
      eval_equation pc false astTwoPowNegTwo = .error .typeError) ∧
    (∀ (pc : ℤ → ℤ → Bool),
      eval_equation pc false astNegBaseFracPow = .ok .complexVal) := by
  refine ⟨?_, ?_, ?_, ?_, ?_⟩
  · intro pc tmo tree
    cases hr : eval_equation pc tmo tree with
    | ok v => exact .inl ⟨v, rfl⟩
    | error e =>
        cases e with
        | evalError => exact .inr (.inl rfl)
        | valueError => exact .inr (.inr (.inl rfl))
        | zeroDivision => exact .inr (.inr (.inr (.inl rfl)))
        | typeError => exact .inr (.inr (.inr (.inr rfl)))
  · intro pc tmo tree hbad v hok
    have := evalNode_ok_usesOnlyArith pc tmo tree v hok
    rw [hbad] at this
    exact absurd this (by simp)
  · intro pc tmo id fld s f a obj
    exact ⟨rfl, rfl, rfl, rfl, rfl⟩
  · intro pc
    with_unfolding_all rfl
  · intro pc
    with_unfolding_all rfl

/-- C10 amended witness: a bare name is not pure arithmetic and indeed never
evaluates to a value (it raises `ExpressionEvaluator.Error`). -/
theorem c10_amended_witness :
    usesOnlyArith (.name "x") = false ∧
    (∀ v, eval_equation (fun _ _ => true) false (.name "x") ≠ .ok v) :=
  ⟨by decide, c10_amended.2.1 (fun _ _ => true) false (.name "x") (by decide)⟩

end Sopel
